import Mathlib

/-!
Verification of the secret-gated forwarding proxy (Vercel serverless
`api/proxy.js` and its edge-function variants) against its natural-language
specification.

The JavaScript handlers are shallowly embedded as pure Lean functions:

* Node/edge header maps become association lists `List (String × String)`
  with lowercase keys (Node lowercases incoming header names); an absent
  header is `none`.
* JavaScript truthiness of a possibly-absent string (`undefined`, `null`
  and `""` are falsy) is `jsTruthy`.
* Environment variables become fields of `ProxyConfig`; an unset or empty
  variable is `none` (both are falsy in the source's `!X` checks).
* The upstream URL (`new URL(N8N_WEBHOOK_URL)`) is modelled structurally as
  an opaque base plus its ordered `searchParams` list; response headers,
  percent-encoding and other WHATWG URL details are not modelled because no
  claim depends on them.
* The network is an oracle `fetchF : OutboundRequest → FetchOutcome`: the
  outcome of the single outbound `fetch` is either a response
  (status, headers, text), the `AbortError` raised when the proxy's own
  timeout fires the `AbortController`, or any other fetch rejection
  (DNS / connect / TLS failure) carrying its message.
* `JSON.parse` is an oracle `jsonParse : String → Option JsonValue`
  (`none` models a thrown `SyntaxError`); `JSON.stringify` of the payloads
  the proxy builds is left as the structured `JsonValue` itself.
* Reading the inbound request body is `bodyRead : Option String`
  (`none` models a stream error, i.e. the rejected promise).
* `Date.now()` is the explicit parameter `now`; the mutable module-level
  `rateMap` is threaded through explicitly as state.
-/

/-- A JSON value, as produced by decoding an upstream body. -/
inductive JsonValue where
  | jnull : JsonValue
  | jbool : Bool → JsonValue
  | jnum : Int → JsonValue
  | jstr : String → JsonValue
  | jarr : List JsonValue → JsonValue
  | jobj : List (String × JsonValue) → JsonValue
deriving Repr, BEq

open JsonValue

/-- JavaScript truthiness of a possibly-absent string value:
`undefined` / missing and the empty string are falsy. -/
def jsTruthy : Option String → Bool
  | none => false
  | some s => s ≠ ""

/-- Evaluation of `a || b || ''` on possibly-absent strings, as in
`(req.headers[h1] || req.headers[h2] || '').toString()`. -/
def jsOrStr (a b : Option String) : String :=
  if jsTruthy a then a.getD "" else if jsTruthy b then b.getD "" else ""

/-- Header lookup: Node's `req.headers[k]` / the Fetch API's
`headers.get(k)` with lowercase key `k`. -/
def hget (hs : List (String × String)) (k : String) : Option String :=
  (hs.find? (fun p => p.1 = k)).map (fun p => p.2)

/-- The upstream URL: opaque base (scheme, host, path) plus its ordered
query-parameter list (`URL.searchParams`). -/
structure UrlModel where
  base : String
  params : List (String × String)
deriving Repr, DecidableEq

/-- The proxy's environment-variable configuration.  An unset or empty
variable is `none`/`none`-like (falsy in the source's checks). -/
structure ProxyConfig where
  n8nWebhookUrl : Option UrlModel
  proxySecret : Option String
  internalAuthToken : Option String
  n8nExpectedProxyHeader : Option String
  rateLimitMax : Nat
  rateLimitWindowMs : Nat
  forwardTimeoutMs : Nat
deriving Repr, DecidableEq

/-- One entry of the in-memory `rateMap`: `{ count, windowStart }`. -/
structure RateEntry where
  count : Nat
  windowStart : Nat
deriving Repr, DecidableEq

/-- The module-level `rateMap` object, keyed by client identifier,
in insertion order. -/
abbrev RateMap := List (String × RateEntry)

/-- Lookup in the `rateMap` object. -/
def rmGet (m : RateMap) (ip : String) : Option RateEntry :=
  (m.find? (fun p => p.1 = ip)).map (fun p => p.2)

/-- Assignment `rateMap[ip] = e` on a JS object: updates the entry in
place when the key exists (object keys are unique, so replacing the
first occurrence is exact), otherwise appends it (insertion order). -/
def rmSet : RateMap → String → RateEntry → RateMap
  | [], ip, e => [(ip, e)]
  | p :: t, ip, e => if p.1 = ip then (ip, e) :: t else p :: rmSet t ip e

/-- Function `isRateLimited(ip)` from `src/api/proxy.js` lines 25–38, with the
module state `rateMap`, the globals `RATE_LIMIT_MAX` /
`RATE_LIMIT_WINDOW_MS` and `Date.now()` made explicit.  Returns the
limited flag together with the updated map. -/
def isRateLimited (limitMax winMs : Nat) (m : RateMap) (ip : String)
    (now : Nat) : Bool × RateMap :=
  match rmGet m ip with
  | none => (false, rmSet m ip ⟨1, now⟩)
  | some e =>
    if now - e.windowStart > winMs then (false, rmSet m ip ⟨1, now⟩)
    else (decide (e.count + 1 > limitMax), rmSet m ip ⟨e.count + 1, e.windowStart⟩)

/-- The fixed-window rate-limiting step as the specification words it
(§4.2): on first request for a key, or when `now − windowStart` exceeds
the configured window, reset to `{count=1, windowStart=now}` and allow;
otherwise increment `count` and reject exactly when the post-increment
count exceeds the configured maximum.  Returns `(allowed, new entry)`. -/
def fixedWindowStep (limitMax winMs : Nat) (entry : Option RateEntry)
    (now : Nat) : Bool × RateEntry :=
  match entry with
  | none => (true, ⟨1, now⟩)
  | some e =>
    if now - e.windowStart > winMs then (true, ⟨1, now⟩)
    else (decide (e.count + 1 ≤ limitMax), ⟨e.count + 1, e.windowStart⟩)

/-- An inbound HTTP request as the Node serverless handler sees it.
`parsedUrl` is the result of `new URL(req.url, https://host)`:
the ordered query-entry list when the URL parses, `none` when the
constructor throws.  `bodyRead` is the result of reading the raw request
stream (`none` = stream error / rejected promise).  `remoteAddress` is
`req.socket?.remoteAddress`. -/
structure InboundRequest where
  method : String
  headers : List (String × String)
  parsedUrl : Option (List (String × String))
  bodyRead : Option String
  remoteAddress : Option String
deriving Repr, DecidableEq

/-- The outbound request handed to `fetch`. -/
structure OutboundRequest where
  method : String
  urlBase : String
  urlParams : List (String × String)
  headers : List (String × String)
  body : Option String
deriving Repr, DecidableEq

/-- The environment's answer to the single outbound `fetch`:
a response (status, headers, body text), the `AbortError` raised when the
proxy's timeout fires its `AbortController`, or any other rejection
(DNS / connect / TLS failure) with its message. -/
inductive FetchOutcome where
  | success : Nat → List (String × String) → String → FetchOutcome
  | abortErr : FetchOutcome
  | fetchErr : String → FetchOutcome
deriving Repr, BEq

/-- The client-visible response: status code plus JSON body
(`none` for the body-less `204` preflight reply).  Response headers
(CORS, content type) are not modelled; no claim depends on them. -/
structure ProxyResponse where
  status : Nat
  body : Option JsonValue
deriving Repr, BEq

/-- Everything observable about one invocation of the serverless handler:
the response sent, the rate-limiter state left behind, and the outbound
request issued (`none` when no `fetch` happened). -/
structure HandlerResult where
  response : ProxyResponse
  rateMap : RateMap
  outbound : Option OutboundRequest
deriving Repr, BEq

/-- Function `getClientIp(req)` from `src/api/proxy.js` lines 22–24:
`req.headers[x-forwarded-for] || req.socket?.remoteAddress || unknown`. -/
def getClientIp (req : InboundRequest) : String :=
  if jsTruthy (hget req.headers "x-forwarded-for") then
    (hget req.headers "x-forwarded-for").getD ""
  else if jsTruthy req.remoteAddress then req.remoteAddress.getD ""
  else "unknown"

/-- JS `parseInt(s, 10)`: skip leading whitespace, optional sign, then a
decimal-digit prefix; `none` models `NaN` (no digits at all). -/
def parseIntJS (s : String) : Option Int :=
  let chars := s.toList.dropWhile (fun c => c = ' ' ∨ c = '\t' ∨ c = '\n' ∨ c = '\r')
  let signed : Int × List Char :=
    match chars with
    | '-' :: rest => (-1, rest)
    | '+' :: rest => (1, rest)
    | rest => (1, rest)
  let digits := signed.2.takeWhile Char.isDigit
  if digits.isEmpty then none
  else some (signed.1 * (digits.foldl (fun acc c => acc * 10 + (c.toNat - 48)) 0 : Nat))

/-- The size guard's condition (`src/api/proxy.js` line 96):
`req.headers[content-length] && parseInt(that, 10) > 200000`
(`NaN > 200000` is false). -/
def sizeGuardHit (cl : Option String) : Bool :=
  jsTruthy cl && (match parseIntJS (cl.getD "") with
                  | none => false
                  | some n => decide (n > 200000))

/-- JS-object assignment `obj[k] = v`: updates the value in place when
the key exists (object keys are unique, so replacing the first
occurrence is exact), otherwise appends. -/
def objAssign : List (String × String) → String → String →
    List (String × String)
  | [], k, v => [(k, v)]
  | p :: t, k, v => if p.1 = k then (k, v) :: t else p :: objAssign t k v

/-- The loop `for (const [k, v] of url.searchParams.entries()) obj[k] = v`
of `parseQueryParams`: collapses the entry list into a JS object, so a
repeated key keeps its first position but its last value. -/
def paramsToObj (entries : List (String × String)) : List (String × String) :=
  entries.foldl (fun o p => objAssign o p.1 p.2) []

/-- Function `parseQueryParams(req)` from `src/api/proxy.js` lines 46–55: the
query entries collapsed to a JS object when the URL parses, the empty
object when the `URL` constructor throws (the `catch` branch). -/
def parseQueryParams (parsedUrl : Option (List (String × String))) :
    List (String × String) :=
  match parsedUrl with
  | none => []
  | some entries => paramsToObj entries

/-- The forward-header object built at `src/api/proxy.js` lines 121–127:
content type copied from the request (defaulting to `application/json`
when absent/empty), the `x-from-proxy` marker, and `x-internal-auth`
exactly when `INTERNAL_AUTH_TOKEN` is set. -/
def mkForwardHeaders (cfg : ProxyConfig) (contentType : Option String) :
    List (String × String) :=
  [("Content-Type", if jsTruthy contentType then contentType.getD "" else "application/json"),
   ("x-from-proxy", if jsTruthy cfg.n8nExpectedProxyHeader then cfg.n8nExpectedProxyHeader.getD "" else "vercel-proxy")] ++
  (if jsTruthy cfg.internalAuthToken then [("x-internal-auth", cfg.internalAuthToken.getD "")] else [])

/-- The body forwarded upstream (`src/api/proxy.js` lines 101–113):
only `POST`/`PUT`/`PATCH` read the stream; a read error or an empty
stream is replaced by the textual empty object; other methods forward
`null`. -/
def readBody (req : InboundRequest) : Option String :=
  if req.method = "POST" ∨ req.method = "PUT" ∨ req.method = "PATCH" then
    some (match req.bodyRead with
          | none => "\x7b\x7d"
          | some s => if s = "" then "\x7b\x7d" else s)
  else none

/-- The outbound request built at `src/api/proxy.js` lines 115–127:
the configured upstream URL with the (object-collapsed) inbound query
appended to its own parameters, the allow-listed headers, and the body. -/
def buildOutbound (cfg : ProxyConfig) (req : InboundRequest) : OutboundRequest :=
  { method := req.method
    urlBase := (cfg.n8nWebhookUrl.getD ⟨"", []⟩).base
    urlParams := (cfg.n8nWebhookUrl.getD ⟨"", []⟩).params ++
      parseQueryParams req.parsedUrl
    headers := mkForwardHeaders cfg (hget req.headers "content-type")
    body := readBody req }

/-- The envelope written on a successful forward
(`src/api/proxy.js` lines 143–149): `JSON.parse` the upstream text, or
wrap it as `{raw: text}` on a parse failure. -/
def envelope (status : Nat) (parsed : Option JsonValue) (text : String) :
    JsonValue :=
  jobj [("forwarded", jbool true), ("status", jnum (status : Int)),
        ("response", parsed.getD (jobj [("raw", jstr text)]))]

/-- A `sendJson(res, status, {error: msg})` reply leaving state `m`. -/
def errResult (status : Nat) (msg : String) (m : RateMap) : HandlerResult :=
  ⟨⟨status, some (jobj [("error", jstr msg)])⟩, m, none⟩

/-- The serverless handler `module.exports` of `src/api/proxy.js`
(lines 57–157), as a pure function of the configuration, the request,
the current `rateMap`, `Date.now()`, and the `fetch` / `JSON.parse`
oracles. -/
def handlerMain (cfg : ProxyConfig) (req : InboundRequest) (m : RateMap)
    (now : Nat) (fetchF : OutboundRequest → FetchOutcome)
    (jsonParse : String → Option JsonValue) : HandlerResult :=
  if cfg.n8nWebhookUrl.isNone then
    errResult 500 "Server misconfigured: missing N8N_WEBHOOK_URL" m
  else if ¬ jsTruthy cfg.proxySecret then
    errResult 500 "Server misconfigured: missing PROXY_SECRET" m
  else if req.method = "OPTIONS" then ⟨⟨204, none⟩, m, none⟩
  else
    let provided := jsOrStr (hget req.headers "x-proxy-secret")
      (hget req.headers "authorization")
    if provided = "" ∨ provided ≠ cfg.proxySecret.getD "" then
      errResult 401 "Unauthorized - invalid proxy secret" m
    else
      let rl := isRateLimited cfg.rateLimitMax cfg.rateLimitWindowMs m
        (getClientIp req) now
      if rl.1 then errResult 429 "Rate limit exceeded" rl.2
      else if sizeGuardHit (hget req.headers "content-length") then
        errResult 413 "Payload too large" rl.2
      else
        let ob := buildOutbound cfg req
        match fetchF ob with
        | .success st _ text =>
          ⟨⟨st, some (envelope st (jsonParse text) text)⟩, rl.2, some ob⟩
        | .abortErr =>
          ⟨⟨504, some (jobj [("error", jstr "Upstream request timed out")])⟩,
           rl.2, some ob⟩
        | .fetchErr msg =>
          ⟨⟨500, some (jobj [("error", jstr "Proxy failed"),
                             ("details", jstr msg)])⟩, rl.2, some ob⟩

/-- Does the response body carry an `error` field? -/
def hasErrorField : Option JsonValue → Bool
  | some (jobj fields) => fields.any (fun p => p.1 = "error")
  | _ => false

/-- Method `URLSearchParams.set(k, v)`: replaces the value of the first
occurrence of `k` and deletes the other occurrences; appends when the
key is absent. -/
def searchParamsSet : List (String × String) → String → String →
    List (String × String)
  | [], k, v => [(k, v)]
  | p :: rest, k, v =>
    if p.1 = k then (k, v) :: rest.filter (fun q => q.1 ≠ k)
    else p :: searchParamsSet rest k v

/-- A simple serialization of the forward URL (`forwardUrl.toString()`),
base plus `?k=v&…`; percent-encoding is not modelled. -/
def urlString (base : String) (ps : List (String × String)) : String :=
  match ps with
  | [] => base
  | _ => base ++ "?" ++ String.intercalate "&" (ps.map (fun p => p.1 ++ "=" ++ p.2))

/-- The result of one edge-function invocation: the `Response` returned
plus the outbound request issued (`none` when no `fetch` happened). -/
structure EdgeResult where
  status : Nat
  body : JsonValue
  outbound : Option OutboundRequest
deriving Repr, BEq

/-- The edge-variant forward URL (`src/unnamed/part_002` lines 34–42 and
`src/vercel/edge-functions/proxy.js` lines 20–23): every inbound query
entry appended verbatim (`searchParams.forEach` keeps duplicates), then
`_proxy_token` set from `INTERNAL_AUTH_TOKEN` when configured. -/
def edgeForwardParams (cfg : ProxyConfig) (entries : List (String × String)) :
    List (String × String) :=
  let appended := (cfg.n8nWebhookUrl.getD ⟨"", []⟩).params ++ entries
  if jsTruthy cfg.internalAuthToken then
    searchParamsSet appended "_proxy_token" (cfg.internalAuthToken.getD "")
  else appended

/-- The outbound request both edge variants build: the
`edgeForwardParams` URL, the two-header allow-list, and the read body
defaulted to the textual empty object (`body || "..."`). -/
def buildEdgeOutbound (cfg : ProxyConfig) (req : InboundRequest) :
    OutboundRequest :=
  let bodyText := req.bodyRead.getD "\x7b\x7d"
  { method := req.method
    urlBase := (cfg.n8nWebhookUrl.getD ⟨"", []⟩).base
    urlParams := edgeForwardParams cfg (req.parsedUrl.getD [])
    headers :=
      [("Content-Type",
        if jsTruthy (hget req.headers "content-type") then
          (hget req.headers "content-type").getD ""
        else "application/json"),
       ("x-from-proxy", "vercel-proxy")]
    body := some (if bodyText = "" then "\x7b\x7d" else bodyText) }

/-- The edge handler of `src/unnamed/part_002`, as a pure function.
In the edge runtime `request.url` is always an absolute parseable URL,
so the query entries are `req.parsedUrl.getD []`.  Its `try`/`catch`
wraps the whole body, so any fetch rejection (there is no
`AbortController` here) lands in the outer catch as `Proxy crashed`;
a successful forward is returned with outer status 200 while the
upstream status only appears inside the envelope. -/
def handlerPart002 (cfg : ProxyConfig) (req : InboundRequest)
    (fetchF : OutboundRequest → FetchOutcome)
    (jsonParse : String → Option JsonValue) : EdgeResult :=
  if ¬ jsTruthy cfg.proxySecret ∨ cfg.n8nWebhookUrl.isNone then
    ⟨500, jobj [("error", jstr "Missing env vars")], none⟩
  else if hget req.headers "x-proxy-secret" ≠ some (cfg.proxySecret.getD "") then
    ⟨401, jobj [("error", jstr "Unauthorized - bad secret")], none⟩
  else
    let ob := buildEdgeOutbound cfg req
    match fetchF ob with
    | .success st _ text =>
      ⟨200, jobj [("forwarded", jbool true), ("status", jnum (st : Int)),
                  ("response", (jsonParse text).getD (jobj [("raw", jstr text)]))],
       some ob⟩
    | .abortErr =>
      ⟨500, jobj [("error", jstr "Proxy crashed"), ("details", jstr "AbortError")],
       some ob⟩
    | .fetchErr msg =>
      ⟨500, jobj [("error", jstr "Proxy crashed"), ("details", jstr msg)],
       some ob⟩

/-- The debug edge handler of `src/vercel/edge-functions/proxy.js`
(first document, lines 1–57), as a pure function.  Its inner
`try`/`catch` around the fetch maps any fetch rejection to a 502
`Upstream fetch failed` reply; a reachable response is echoed inside a
status-200 debug body. -/
def handlerEdgeDebug (cfg : ProxyConfig) (req : InboundRequest)
    (fetchF : OutboundRequest → FetchOutcome) : EdgeResult :=
  if ¬ jsTruthy cfg.proxySecret ∨ cfg.n8nWebhookUrl.isNone then
    ⟨500, jobj [("error", jstr "Missing env vars")], none⟩
  else if hget req.headers "x-proxy-secret" ≠ some (cfg.proxySecret.getD "") then
    ⟨401, jobj [("error", jstr "Unauthorized - bad secret")], none⟩
  else
    let ob := buildEdgeOutbound cfg req
    let fwdStr := urlString ob.urlBase ob.urlParams
    match fetchF ob with
    | .success st respHeaders text =>
      ⟨200, jobj [("debug", jbool true), ("forwardUrl", jstr fwdStr),
                  ("upstreamStatus", jnum (st : Int)),
                  ("upstreamHeaders", jobj (respHeaders.map (fun p => (p.1, jstr p.2)))),
                  ("upstreamBody", jstr text)],
       some ob⟩
    | .abortErr =>
      ⟨502, jobj [("error", jstr "Upstream fetch failed"),
                  ("details", jstr "AbortError"), ("forwardUrl", jstr fwdStr)],
       some ob⟩
    | .fetchErr msg =>
      ⟨502, jobj [("error", jstr "Upstream fetch failed"),
                  ("details", jstr msg), ("forwardUrl", jstr fwdStr)],
       some ob⟩

/-! Concrete fixtures used to instantiate the theorems below. -/

/-- A fully-populated configuration: upstream with one pre-existing
query parameter, secret set, limiter `max=2, window=1000ms`. -/
def cfgOk : ProxyConfig :=
  ⟨some ⟨"https://n8n.example/webhook", [("a", "0")]⟩, some "s3cret",
   none, none, 2, 1000, 30000⟩

/-- A configuration with the upstream URL env var unset. -/
def cfgNoUrl : ProxyConfig :=
  ⟨none, some "s3cret", none, none, 2, 1000, 30000⟩

/-- A well-formed authenticated POST request. -/
def reqGood : InboundRequest :=
  ⟨"POST", [("x-proxy-secret", "s3cret"), ("x-forwarded-for", "9.9.9.9")],
   some [], some "hi", none⟩

/-- A fetch oracle answering 200 / `ok` to everything. -/
def fetchOk : OutboundRequest → FetchOutcome := fun _ => .success 200 [] "ok"

/-- A `JSON.parse` oracle for which nothing decodes. -/
def jpNone : String → Option JsonValue := fun _ => none

/-! ## Helper lemmas -/

theorem rmGet_rmSet (m : RateMap) (ip : String) (e : RateEntry) :
    rmGet (rmSet m ip e) ip = some e := by
  induction m with
  | nil => simp [rmGet, rmSet]
  | cons p t ih =>
    by_cases h : p.1 = ip
    · simp [rmSet, h, rmGet, List.find?]
    · simpa [rmSet, h, rmGet, List.find?] using ih

/-! ## C5: fixed-window rate limiter -/

/-- C5: the rate limiter is a fixed window per client key: on the first
request for a key, or when `now − windowStart` exceeds the window, the
entry is reset to `{count=1, windowStart=now}` and the request is
allowed; otherwise the count is incremented and the request is rejected
exactly when the post-increment count exceeds the maximum (this is
`fixedWindowStep`, worded from the spec).  And concretely, with
`max=2, window=1000ms`, three same-key requests through the full handler
at 0ms, 100ms and 200ms yield statuses `[200, 200, 429]`, and a fourth
at 1001ms (more than 1000ms after the first) is forwarded again. -/
theorem proxy_rate_limiter_fixed_window :
    (∀ limitMax winMs m ip now,
      (isRateLimited limitMax winMs m ip now).1 =
        !(fixedWindowStep limitMax winMs (rmGet m ip) now).1 ∧
      rmGet (isRateLimited limitMax winMs m ip now).2 ip =
        some (fixedWindowStep limitMax winMs (rmGet m ip) now).2) ∧
    ((handlerMain cfgOk reqGood [] 0 fetchOk jpNone).response.status = 200 ∧
     (handlerMain cfgOk reqGood
        (handlerMain cfgOk reqGood [] 0 fetchOk jpNone).rateMap
        100 fetchOk jpNone).response.status = 200 ∧
     (handlerMain cfgOk reqGood
        (handlerMain cfgOk reqGood
          (handlerMain cfgOk reqGood [] 0 fetchOk jpNone).rateMap
          100 fetchOk jpNone).rateMap
        200 fetchOk jpNone).response.status = 429 ∧
     (handlerMain cfgOk reqGood
        (handlerMain cfgOk reqGood
          (handlerMain cfgOk reqGood
            (handlerMain cfgOk reqGood [] 0 fetchOk jpNone).rateMap
            100 fetchOk jpNone).rateMap
          200 fetchOk jpNone).rateMap
        1001 fetchOk jpNone).response.status = 200) := by
  constructor
  · intro limitMax winMs m ip now
    unfold isRateLimited fixedWindowStep
    rcases h : rmGet m ip with _ | e
    · exact ⟨rfl, rmGet_rmSet m ip ⟨1, now⟩⟩
    · by_cases hw : now - e.windowStart > winMs
      · simp only [if_pos hw]
        exact ⟨rfl, rmGet_rmSet m ip ⟨1, now⟩⟩
      · have hiff : (e.count + 1 > limitMax) ↔ ¬ (e.count + 1 ≤ limitMax) := by omega
        simp only [if_neg hw]
        refine ⟨?_, rmGet_rmSet m ip ⟨e.count + 1, e.windowStart⟩⟩
        have hd : decide (e.count + 1 > limitMax) =
            decide (¬ (e.count + 1 ≤ limitMax)) := by
          rw [decide_eq_decide]; exact hiff
        rw [hd, decide_not]
  · refine ⟨by decide, by decide, by decide, by decide⟩

/-! ## C1: authentication failures -/

/-- C1: with a valid configuration, every non-preflight request whose
provided secret (the `x-proxy-secret` header, falling back to the
`authorization` header) is missing or not an exact string match against
the configured secret is answered with status 401 and a body carrying an
`error` field — regardless of method, payload, rate-limiter state or
network behaviour — and nothing is forwarded nor rate-limited for it.
The last two conjuncts pin the reading order: the dedicated header wins
when non-empty, otherwise the generic `authorization` header is used. -/
theorem proxy_auth_failure_401 (cfg : ProxyConfig) (req : InboundRequest)
    (m : RateMap) (now : Nat) (fetchF : OutboundRequest → FetchOutcome)
    (jsonParse : String → Option JsonValue)
    (hUrl : cfg.n8nWebhookUrl.isSome) (hSec : jsTruthy cfg.proxySecret)
    (hMeth : req.method ≠ "OPTIONS")
    (hAuth : jsOrStr (hget req.headers "x-proxy-secret")
      (hget req.headers "authorization") ≠ cfg.proxySecret.getD "") :
    (handlerMain cfg req m now fetchF jsonParse).response.status = 401 ∧
    hasErrorField (handlerMain cfg req m now fetchF jsonParse).response.body = true ∧
    (handlerMain cfg req m now fetchF jsonParse).outbound = none ∧
    (handlerMain cfg req m now fetchF jsonParse).rateMap = m ∧
    (∀ hs, jsTruthy (hget hs "x-proxy-secret") →
      jsOrStr (hget hs "x-proxy-secret") (hget hs "authorization") =
        (hget hs "x-proxy-secret").getD "") ∧
    (∀ hs, ¬ jsTruthy (hget hs "x-proxy-secret") →
      jsOrStr (hget hs "x-proxy-secret") (hget hs "authorization") =
        if jsTruthy (hget hs "authorization") then
          (hget hs "authorization").getD "" else "") := by
  have hU : ¬ (cfg.n8nWebhookUrl.isNone = true) := by
    rw [Option.isNone_iff_eq_none]
    exact Option.isSome_iff_ne_none.mp hUrl
  have hEq : handlerMain cfg req m now fetchF jsonParse =
      errResult 401 "Unauthorized - invalid proxy secret" m := by
    unfold handlerMain
    rw [if_neg hU, if_neg (not_not_intro hSec), if_neg hMeth,
        if_pos (Or.inr hAuth)]
  refine ⟨by rw [hEq]; rfl, by rw [hEq]; rfl, by rw [hEq]; rfl,
          by rw [hEq]; rfl, ?_, ?_⟩
  · intro hs h
    unfold jsOrStr
    rw [if_pos h]
  · intro hs h
    unfold jsOrStr
    rw [if_neg h]

/-- Witness for C1 at a concrete input: a POST with a wrong
`authorization` secret is answered 401 with an `error` field. -/
theorem proxy_auth_failure_401_witness :
    (handlerMain cfgOk
      ⟨"POST", [("authorization", "wrong")], some [], some "hi", none⟩
      [] 0 fetchOk jpNone).response.status = 401 ∧
    hasErrorField (handlerMain cfgOk
      ⟨"POST", [("authorization", "wrong")], some [], some "hi", none⟩
      [] 0 fetchOk jpNone).response.body = true := by
  have h := proxy_auth_failure_401 cfgOk
    ⟨"POST", [("authorization", "wrong")], some [], some "hi", none⟩
    [] 0 fetchOk jpNone (by decide) (by decide) (by decide) (by decide)
  exact ⟨h.1, h.2.1⟩

/-! ## Helper lemmas about the main handler's control flow -/

theorem secret_getD_ne_empty (cfg : ProxyConfig)
    (hSec : jsTruthy cfg.proxySecret) : cfg.proxySecret.getD "" ≠ "" := by
  cases hc : cfg.proxySecret with
  | none => rw [hc] at hSec; simp [jsTruthy] at hSec
  | some s => rw [hc] at hSec; simpa [jsTruthy] using hSec

theorem auth_pass_not_rejected (cfg : ProxyConfig) (req : InboundRequest)
    (hSec : jsTruthy cfg.proxySecret)
    (hAuth : jsOrStr (hget req.headers "x-proxy-secret")
      (hget req.headers "authorization") = cfg.proxySecret.getD "") :
    ¬ (jsOrStr (hget req.headers "x-proxy-secret")
        (hget req.headers "authorization") = "" ∨
       ¬ jsOrStr (hget req.headers "x-proxy-secret")
        (hget req.headers "authorization") = cfg.proxySecret.getD "") := by
  intro hor
  rcases hor with he | hn
  · exact secret_getD_ne_empty cfg hSec (hAuth ▸ he)
  · exact hn hAuth

theorem outbound_eq_buildOutbound (cfg : ProxyConfig) (req : InboundRequest)
    (m : RateMap) (now : Nat) (fetchF : OutboundRequest → FetchOutcome)
    (jsonParse : String → Option JsonValue) (ob : OutboundRequest)
    (h : (handlerMain cfg req m now fetchF jsonParse).outbound = some ob) :
    ob = buildOutbound cfg req := by
  unfold handlerMain at h
  by_cases h1 : cfg.n8nWebhookUrl.isNone = true
  · rw [if_pos h1] at h; exact absurd h (by simp [errResult])
  rw [if_neg h1] at h
  by_cases h2 : ¬ jsTruthy cfg.proxySecret = true
  · rw [if_pos h2] at h; exact absurd h (by simp [errResult])
  rw [if_neg h2] at h
  by_cases h3 : req.method = "OPTIONS"
  · rw [if_pos h3] at h; exact absurd h (by simp)
  rw [if_neg h3] at h
  by_cases h4 : jsOrStr (hget req.headers "x-proxy-secret")
      (hget req.headers "authorization") = "" ∨
      ¬ jsOrStr (hget req.headers "x-proxy-secret")
        (hget req.headers "authorization") = cfg.proxySecret.getD ""
  · rw [if_pos h4] at h; exact absurd h (by simp [errResult])
  rw [if_neg h4] at h
  by_cases h5 : (isRateLimited cfg.rateLimitMax cfg.rateLimitWindowMs m
      (getClientIp req) now).1 = true
  · rw [if_pos h5] at h; exact absurd h (by simp [errResult])
  rw [if_neg h5] at h
  by_cases h6 : sizeGuardHit (hget req.headers "content-length") = true
  · rw [if_pos h6] at h; exact absurd h (by simp [errResult])
  rw [if_neg h6] at h
  rcases hf : fetchF (buildOutbound cfg req) with ⟨st, hs, text⟩ | _ | msg <;>
    simp only [hf] at h <;> simpa using h.symm

theorem handlerMain_forward (cfg : ProxyConfig) (req : InboundRequest)
    (m : RateMap) (now : Nat) (fetchF : OutboundRequest → FetchOutcome)
    (jsonParse : String → Option JsonValue)
    (hUrl : cfg.n8nWebhookUrl.isSome) (hSec : jsTruthy cfg.proxySecret)
    (hMeth : req.method ≠ "OPTIONS")
    (hAuth : jsOrStr (hget req.headers "x-proxy-secret")
      (hget req.headers "authorization") = cfg.proxySecret.getD "")
    (hRL : (isRateLimited cfg.rateLimitMax cfg.rateLimitWindowMs m
      (getClientIp req) now).1 = false)
    (hCL : sizeGuardHit (hget req.headers "content-length") = false) :
    handlerMain cfg req m now fetchF jsonParse =
      (match fetchF (buildOutbound cfg req) with
       | .success st _ text =>
         ⟨⟨st, some (envelope st (jsonParse text) text)⟩,
          (isRateLimited cfg.rateLimitMax cfg.rateLimitWindowMs m
            (getClientIp req) now).2, some (buildOutbound cfg req)⟩
       | .abortErr =>
         ⟨⟨504, some (jobj [("error", jstr "Upstream request timed out")])⟩,
          (isRateLimited cfg.rateLimitMax cfg.rateLimitWindowMs m
            (getClientIp req) now).2, some (buildOutbound cfg req)⟩
       | .fetchErr msg =>
         ⟨⟨500, some (jobj [("error", jstr "Proxy failed"),
                            ("details", jstr msg)])⟩,
          (isRateLimited cfg.rateLimitMax cfg.rateLimitWindowMs m
            (getClientIp req) now).2, some (buildOutbound cfg req)⟩) := by
  have hU : ¬ (cfg.n8nWebhookUrl.isNone = true) := by
    rw [Option.isNone_iff_eq_none]
    exact Option.isSome_iff_ne_none.mp hUrl
  unfold handlerMain
  rw [if_neg hU, if_neg (not_not_intro hSec), if_neg hMeth,
      if_neg (auth_pass_not_rejected cfg req hSec hAuth),
      if_neg (by rw [hRL]; exact Bool.false_ne_true),
      if_neg (by rw [hCL]; exact Bool.false_ne_true)]

/-! ## C2: outbound header allow-list -/

/-- C2: for every forwarded request the outbound header set is exactly
`Content-Type` (copied from the inbound request, defaulting to
`application/json` when absent) and `x-from-proxy`, plus
`x-internal-auth` exactly when the internal credential is configured;
and any two forwarded requests agreeing on the inbound `content-type`
header produce identical outbound headers, so no other inbound header —
in particular neither `x-proxy-secret` nor `authorization` — influences
or reaches the outbound header set. -/
theorem proxy_forward_header_allowlist (cfg : ProxyConfig)
    (req : InboundRequest) (m : RateMap) (now : Nat)
    (fetchF : OutboundRequest → FetchOutcome)
    (jsonParse : String → Option JsonValue) (ob : OutboundRequest)
    (hOb : (handlerMain cfg req m now fetchF jsonParse).outbound = some ob) :
    ob.headers =
      [("Content-Type",
        if jsTruthy (hget req.headers "content-type") then
          (hget req.headers "content-type").getD ""
        else "application/json"),
       ("x-from-proxy",
        if jsTruthy cfg.n8nExpectedProxyHeader then
          cfg.n8nExpectedProxyHeader.getD "" else "vercel-proxy")] ++
      (if jsTruthy cfg.internalAuthToken then
        [("x-internal-auth", cfg.internalAuthToken.getD "")] else []) ∧
    (∀ req2 m2 now2 fetchF2 jsonParse2 ob2,
      (handlerMain cfg req2 m2 now2 fetchF2 jsonParse2).outbound = some ob2 →
      hget req2.headers "content-type" = hget req.headers "content-type" →
      ob2.headers = ob.headers) := by
  have hb := outbound_eq_buildOutbound cfg req m now fetchF jsonParse ob hOb
  constructor
  · rw [hb]; rfl
  · intro req2 m2 now2 fetchF2 jsonParse2 ob2 hOb2 hct
    have hb2 := outbound_eq_buildOutbound cfg req2 m2 now2 fetchF2 jsonParse2
      ob2 hOb2
    rw [hb, hb2]
    simp [buildOutbound, mkForwardHeaders, hct]

/-- Witness for C2 at a concrete input: the forwarded request of
`reqGood` (which carries an `x-proxy-secret` header and no content type)
goes out with exactly the defaulted content type and the proxy marker. -/
theorem proxy_forward_header_allowlist_witness :
    (buildOutbound cfgOk reqGood).headers =
      [("Content-Type", "application/json"),
       ("x-from-proxy", "vercel-proxy")] := by
  have h := proxy_forward_header_allowlist cfgOk reqGood [] 0 fetchOk jpNone
    (buildOutbound cfgOk reqGood) (by decide)
  exact h.1.trans (by decide)

/-! ## C3: missing configuration -/

/-- C3 counterexample: with the upstream URL unset, a preflight
(`OPTIONS`) request does NOT succeed — the config check sits before the
preflight short-circuit, so the preflight is answered 500 with an
`error` body rather than the 204 preflight reply; the claim that
preflight bypasses the config check is false. -/
theorem proxy_preflight_misconfig_counterexample :
    (handlerMain cfgNoUrl ⟨"OPTIONS", [], some [], none, none⟩
      [] 0 fetchOk jpNone).response.status = 500 ∧
    ¬ (handlerMain cfgNoUrl ⟨"OPTIONS", [], some [], none, none⟩
      [] 0 fetchOk jpNone).response.status = 204 ∧
    hasErrorField (handlerMain cfgNoUrl ⟨"OPTIONS", [], some [], none, none⟩
      [] 0 fetchOk jpNone).response.body = true := by
  refine ⟨by decide, by decide, by decide⟩

/-- C3 (amended): if the configuration lacks the upstream URL or the
secret, EVERY request — preflight included — yields the same
500-with-`error` response determined by the configuration alone: no
forwarding happens, the rate-limiter state is untouched, and the
response is independent of every other input.  (Preflight bypasses the
auth check but not the config check.) -/
theorem proxy_misconfig_500_uniform (cfg : ProxyConfig)
    (req : InboundRequest) (m : RateMap) (now : Nat)
    (fetchF : OutboundRequest → FetchOutcome)
    (jsonParse : String → Option JsonValue)
    (hMis : cfg.n8nWebhookUrl.isNone = true ∨ ¬ jsTruthy cfg.proxySecret) :
    handlerMain cfg req m now fetchF jsonParse =
      errResult 500
        (if cfg.n8nWebhookUrl.isNone then
          "Server misconfigured: missing N8N_WEBHOOK_URL"
         else "Server misconfigured: missing PROXY_SECRET") m := by
  by_cases hN : cfg.n8nWebhookUrl.isNone = true
  · unfold handlerMain
    rw [if_pos hN, if_pos hN]
  · have hS : ¬ jsTruthy cfg.proxySecret = true := hMis.resolve_left hN
    unfold handlerMain
    rw [if_neg hN, if_pos hS, if_neg hN]

/-- Witness for C3 (amended) at a concrete input: with the upstream URL
unset, an authenticated POST gets the fixed 500 misconfiguration reply
and leaves everything untouched. -/
theorem proxy_misconfig_500_uniform_witness :
    handlerMain cfgNoUrl reqGood [] 5 fetchOk jpNone =
      errResult 500 "Server misconfigured: missing N8N_WEBHOOK_URL" [] := by
  have h := proxy_misconfig_500_uniform cfgNoUrl reqGood [] 5 fetchOk jpNone
    (Or.inl (by decide))
  exact h

/-! ## C4: success envelope and status mirroring -/

/-- C4 counterexample: the `src/unnamed/part_002` edge variant — cited
by the claim — does rewrite a successful upstream status: upstream
answers 418, yet the proxy's own response status is 200; the upstream
status survives only inside the envelope. -/
theorem proxy_part002_rewrites_status_counterexample :
    (handlerPart002 cfgOk reqGood
      (fun _ => .success 418 [] "teapot") jpNone).status = 200 ∧
    (200 : Nat) ≠ 418 ∧
    (handlerPart002 cfgOk reqGood
      (fun _ => .success 418 [] "teapot") jpNone).body =
      jobj [("forwarded", jbool true), ("status", jnum 418),
            ("response", jobj [("raw", jstr "teapot")])] := by
  refine ⟨by decide, by decide, rfl⟩

/-- C4 (amended): in the main serverless pipeline every successful
forward is answered with the upstream's own status and the envelope
`forwarded / status / response`, where `response` is the decoded
upstream body, or `{raw: text}` when decoding fails — the main handler
never rewrites a successful upstream status.  The `part_002` edge
variant, however, pins its outer status to 200 on success; there the
upstream status appears only inside the envelope. -/
theorem proxy_success_envelope_mirrors_status (cfg : ProxyConfig)
    (req : InboundRequest) (m : RateMap) (now : Nat)
    (fetchF : OutboundRequest → FetchOutcome)
    (jsonParse : String → Option JsonValue)
    (st : Nat) (hs : List (String × String)) (text : String)
    (hUrl : cfg.n8nWebhookUrl.isSome) (hSec : jsTruthy cfg.proxySecret)
    (hMeth : req.method ≠ "OPTIONS")
    (hAuth : jsOrStr (hget req.headers "x-proxy-secret")
      (hget req.headers "authorization") = cfg.proxySecret.getD "")
    (hRL : (isRateLimited cfg.rateLimitMax cfg.rateLimitWindowMs m
      (getClientIp req) now).1 = false)
    (hCL : sizeGuardHit (hget req.headers "content-length") = false)
    (hFetch : fetchF (buildOutbound cfg req) = .success st hs text) :
    (handlerMain cfg req m now fetchF jsonParse).response.status = st ∧
    (handlerMain cfg req m now fetchF jsonParse).response.body =
      some (envelope st (jsonParse text) text) ∧
    (∀ s t, envelope s none t =
      jobj [("forwarded", jbool true), ("status", jnum (s : Int)),
            ("response", jobj [("raw", jstr t)])]) ∧
    (∀ s v t, envelope s (some v) t =
      jobj [("forwarded", jbool true), ("status", jnum (s : Int)),
            ("response", v)]) ∧
    (∀ fetchF2 st2 hs2 text2,
      hget req.headers "x-proxy-secret" = some (cfg.proxySecret.getD "") →
      fetchF2 (buildEdgeOutbound cfg req) =
        FetchOutcome.success st2 hs2 text2 →
      (handlerPart002 cfg req fetchF2 jsonParse).status = 200) := by
  rw [handlerMain_forward cfg req m now fetchF jsonParse
    hUrl hSec hMeth hAuth hRL hCL, hFetch]
  refine ⟨rfl, rfl, fun s t => rfl, fun s v t => rfl, ?_⟩
  intro fetchF2 st2 hs2 text2 hXps hF2
  have hc1 : ¬ (¬ jsTruthy cfg.proxySecret = true ∨
      cfg.n8nWebhookUrl.isNone = true) := by
    intro hor
    rcases hor with hn | hisn
    · exact hn hSec
    · rw [Option.isNone_iff_eq_none] at hisn
      exact Option.isSome_iff_ne_none.mp hUrl hisn
  unfold handlerPart002
  rw [if_neg hc1, if_neg (not_not_intro hXps)]
  simp only [hF2]

/-- Witness for C4 (amended) at a concrete input: a 207 upstream reply
whose body does not decode is mirrored as 207 with the raw-wrapped
envelope. -/
theorem proxy_success_envelope_mirrors_status_witness :
    (handlerMain cfgOk reqGood [] 0
      (fun _ => .success 207 [] "multi") jpNone).response.status = 207 ∧
    (handlerMain cfgOk reqGood [] 0
      (fun _ => .success 207 [] "multi") jpNone).response.body =
      some (envelope 207 none "multi") := by
  have h := proxy_success_envelope_mirrors_status cfgOk reqGood [] 0
    (fun _ => .success 207 [] "multi") jpNone 207 [] "multi"
    (by decide) (by decide) (by decide) (by decide) (by decide) (by decide)
    rfl
  exact ⟨h.1, h.2.1⟩

/-! ## C6: size guard -/

theorem handlerMain_413 (cfg : ProxyConfig) (req : InboundRequest)
    (m : RateMap) (now : Nat) (fetchF : OutboundRequest → FetchOutcome)
    (jsonParse : String → Option JsonValue)
    (hUrl : cfg.n8nWebhookUrl.isSome) (hSec : jsTruthy cfg.proxySecret)
    (hMeth : req.method ≠ "OPTIONS")
    (hAuth : jsOrStr (hget req.headers "x-proxy-secret")
      (hget req.headers "authorization") = cfg.proxySecret.getD "")
    (hRL : (isRateLimited cfg.rateLimitMax cfg.rateLimitWindowMs m
      (getClientIp req) now).1 = false)
    (hCL : sizeGuardHit (hget req.headers "content-length") = true) :
    handlerMain cfg req m now fetchF jsonParse =
      errResult 413 "Payload too large"
        (isRateLimited cfg.rateLimitMax cfg.rateLimitWindowMs m
          (getClientIp req) now).2 := by
  have hU : ¬ (cfg.n8nWebhookUrl.isNone = true) := by
    rw [Option.isNone_iff_eq_none]
    exact Option.isSome_iff_ne_none.mp hUrl
  unfold handlerMain
  rw [if_neg hU, if_neg (not_not_intro hSec), if_neg hMeth,
      if_neg (auth_pass_not_rejected cfg req hSec hAuth),
      if_neg (by rw [hRL]; exact Bool.false_ne_true), if_pos hCL]

/-- C6 counterexample: a POST declaring content length 200001 is indeed
rejected with 413, but the rate-limiter state is NOT left unchanged:
the limiter runs before the size guard, so the client's counter entry
is created/incremented by the rejected request. -/
theorem proxy_size_guard_mutates_limiter_counterexample :
    (handlerMain cfgOk
      ⟨"POST", [("x-proxy-secret", "s3cret"), ("content-length", "200001")],
       some [], some "x", none⟩ [] 0 fetchOk jpNone).response.status = 413 ∧
    (handlerMain cfgOk
      ⟨"POST", [("x-proxy-secret", "s3cret"), ("content-length", "200001")],
       some [], some "x", none⟩ [] 0 fetchOk jpNone).rateMap ≠
      ([] : RateMap) := by
  refine ⟨by decide, by decide⟩

/-- C6 (amended): a request whose declared content length trips the
200000-byte ceiling is rejected 413 with an `error` body before any
body bytes are read (the response and final state are independent of
the body-read result), and nothing is forwarded — but the rate limiter
runs BEFORE the size guard, so the limiter state after the 413 is the
post-`isRateLimited` state, not the incoming one. -/
theorem proxy_size_guard_413_after_limiter (cfg : ProxyConfig)
    (req : InboundRequest) (m : RateMap) (now : Nat)
    (fetchF : OutboundRequest → FetchOutcome)
    (jsonParse : String → Option JsonValue)
    (hUrl : cfg.n8nWebhookUrl.isSome) (hSec : jsTruthy cfg.proxySecret)
    (hMeth : req.method ≠ "OPTIONS")
    (hAuth : jsOrStr (hget req.headers "x-proxy-secret")
      (hget req.headers "authorization") = cfg.proxySecret.getD "")
    (hRL : (isRateLimited cfg.rateLimitMax cfg.rateLimitWindowMs m
      (getClientIp req) now).1 = false)
    (hCL : sizeGuardHit (hget req.headers "content-length") = true) :
    (handlerMain cfg req m now fetchF jsonParse).response.status = 413 ∧
    hasErrorField (handlerMain cfg req m now fetchF jsonParse).response.body
      = true ∧
    (handlerMain cfg req m now fetchF jsonParse).outbound = none ∧
    (handlerMain cfg req m now fetchF jsonParse).rateMap =
      (isRateLimited cfg.rateLimitMax cfg.rateLimitWindowMs m
        (getClientIp req) now).2 ∧
    (∀ b, handlerMain cfg {req with bodyRead := b} m now fetchF jsonParse =
      handlerMain cfg req m now fetchF jsonParse) := by
  have key := handlerMain_413 cfg req m now fetchF jsonParse
    hUrl hSec hMeth hAuth hRL hCL
  refine ⟨by rw [key]; rfl, by rw [key]; rfl, by rw [key]; rfl,
          by rw [key]; rfl, ?_⟩
  intro b
  have keyb := handlerMain_413 cfg {req with bodyRead := b} m now
    fetchF jsonParse hUrl hSec hMeth hAuth hRL hCL
  exact keyb.trans key.symm

/-- Witness for C6 (amended) at a concrete input: declared length 200001
on a POST gives 413 while the limiter has already recorded the request
under the fallback client key. -/
theorem proxy_size_guard_413_after_limiter_witness :
    (handlerMain cfgOk
      ⟨"POST", [("x-proxy-secret", "s3cret"), ("content-length", "200001")],
       some [], some "x", none⟩ [] 0 fetchOk jpNone).response.status = 413 ∧
    (handlerMain cfgOk
      ⟨"POST", [("x-proxy-secret", "s3cret"), ("content-length", "200001")],
       some [], some "x", none⟩ [] 0 fetchOk jpNone).rateMap =
      [("unknown", ⟨1, 0⟩)] := by
  have h := proxy_size_guard_413_after_limiter cfgOk
    ⟨"POST", [("x-proxy-secret", "s3cret"), ("content-length", "200001")],
     some [], some "x", none⟩ [] 0 fetchOk jpNone
    (by decide) (by decide) (by decide) (by decide) (by decide) (by decide)
  exact ⟨h.1, h.2.2.2.1.trans (by decide)⟩

/-! ## C7: timeout maps to 504 -/

/-- C7: for every forwarded request, when the outbound call ends in the
`AbortError` raised by the proxy's own timeout firing its
`AbortController`, the proxy answers 504 with the
`Upstream request timed out` error body (and the forwarded request is
the one built by the pipeline).  The timer itself is real time and is
modelled only through this abort outcome. -/
theorem proxy_timeout_504 (cfg : ProxyConfig) (req : InboundRequest)
    (m : RateMap) (now : Nat) (fetchF : OutboundRequest → FetchOutcome)
    (jsonParse : String → Option JsonValue)
    (hUrl : cfg.n8nWebhookUrl.isSome) (hSec : jsTruthy cfg.proxySecret)
    (hMeth : req.method ≠ "OPTIONS")
    (hAuth : jsOrStr (hget req.headers "x-proxy-secret")
      (hget req.headers "authorization") = cfg.proxySecret.getD "")
    (hRL : (isRateLimited cfg.rateLimitMax cfg.rateLimitWindowMs m
      (getClientIp req) now).1 = false)
    (hCL : sizeGuardHit (hget req.headers "content-length") = false)
    (hFetch : fetchF (buildOutbound cfg req) = FetchOutcome.abortErr) :
    (handlerMain cfg req m now fetchF jsonParse).response =
      ⟨504, some (jobj [("error", jstr "Upstream request timed out")])⟩ ∧
    hasErrorField (handlerMain cfg req m now fetchF jsonParse).response.body
      = true ∧
    (handlerMain cfg req m now fetchF jsonParse).outbound =
      some (buildOutbound cfg req) := by
  rw [handlerMain_forward cfg req m now fetchF jsonParse
    hUrl hSec hMeth hAuth hRL hCL, hFetch]
  exact ⟨rfl, rfl, rfl⟩

/-- Witness for C7 at a concrete input: a timed-out forward of an
authenticated POST yields exactly the 504 timeout reply. -/
theorem proxy_timeout_504_witness :
    (handlerMain cfgOk reqGood [] 0
      (fun _ => FetchOutcome.abortErr) jpNone).response =
      ⟨504, some (jobj [("error", jstr "Upstream request timed out")])⟩ := by
  have h := proxy_timeout_504 cfgOk reqGood [] 0
    (fun _ => FetchOutcome.abortErr) jpNone
    (by decide) (by decide) (by decide) (by decide) (by decide) (by decide)
    rfl
  exact h.1

/-! ## C8: transport-level fetch failures -/

/-- C8 counterexample: in the main serverless handler a non-abort fetch
failure (e.g. a refused connection) is answered 500 (`Proxy failed`),
not 502 — the generic catch, not an `UpstreamUnreachable` mapping,
handles it. -/
theorem proxy_transport_failure_500_counterexample :
    (handlerMain cfgOk reqGood [] 0
      (fun _ => .fetchErr "connect ECONNREFUSED") jpNone).response.status
      = 500 ∧
    ¬ (handlerMain cfgOk reqGood [] 0
      (fun _ => .fetchErr "connect ECONNREFUSED") jpNone).response.status
      = 502 ∧
    hasErrorField (handlerMain cfgOk reqGood [] 0
      (fun _ => .fetchErr "connect ECONNREFUSED") jpNone).response.body
      = true := by
  refine ⟨by decide, by decide, by decide⟩

/-- C8 (amended): a transport-level fetch failure (any rejection that is
not the timeout `AbortError`) is mapped by the MAIN handler to 500 with
the `Proxy failed` / `details` body; only the debug edge-function
variant (`src/vercel/edge-functions/proxy.js`) maps such failures to 502
(`Upstream fetch failed`). -/
theorem proxy_transport_failure_mapping (cfg : ProxyConfig)
    (req : InboundRequest) (m : RateMap) (now : Nat)
    (fetchF : OutboundRequest → FetchOutcome)
    (jsonParse : String → Option JsonValue) (msg : String) :
    (cfg.n8nWebhookUrl.isSome → jsTruthy cfg.proxySecret →
      req.method ≠ "OPTIONS" →
      jsOrStr (hget req.headers "x-proxy-secret")
        (hget req.headers "authorization") = cfg.proxySecret.getD "" →
      (isRateLimited cfg.rateLimitMax cfg.rateLimitWindowMs m
        (getClientIp req) now).1 = false →
      sizeGuardHit (hget req.headers "content-length") = false →
      fetchF (buildOutbound cfg req) = FetchOutcome.fetchErr msg →
      (handlerMain cfg req m now fetchF jsonParse).response =
        ⟨500, some (jobj [("error", jstr "Proxy failed"),
                          ("details", jstr msg)])⟩) ∧
    (cfg.n8nWebhookUrl.isSome → jsTruthy cfg.proxySecret →
      hget req.headers "x-proxy-secret" = some (cfg.proxySecret.getD "") →
      ∀ fetchF2, fetchF2 (buildEdgeOutbound cfg req) =
        FetchOutcome.fetchErr msg →
      (handlerEdgeDebug cfg req fetchF2).status = 502 ∧
      hasErrorField (some (handlerEdgeDebug cfg req fetchF2).body)
        = true) := by
  constructor
  · intro hUrl hSec hMeth hAuth hRL hCL hFetch
    rw [handlerMain_forward cfg req m now fetchF jsonParse
      hUrl hSec hMeth hAuth hRL hCL, hFetch]
  · intro hUrl hSec hXps fetchF2 hF2
    have hc1 : ¬ (¬ jsTruthy cfg.proxySecret = true ∨
        cfg.n8nWebhookUrl.isNone = true) := by
      intro hor
      rcases hor with hn | hisn
      · exact hn hSec
      · rw [Option.isNone_iff_eq_none] at hisn
        exact Option.isSome_iff_ne_none.mp hUrl hisn
    unfold handlerEdgeDebug
    rw [if_neg hc1, if_neg (not_not_intro hXps)]
    simp only [hF2]
    exact ⟨trivial, rfl⟩

/-- Witness for C8 (amended) at a concrete input: a refused connection
gives the main handler's 500 reply and the debug edge variant's 502. -/
theorem proxy_transport_failure_mapping_witness :
    (handlerMain cfgOk reqGood [] 0
      (fun _ => .fetchErr "getaddrinfo ENOTFOUND") jpNone).response =
      ⟨500, some (jobj [("error", jstr "Proxy failed"),
                        ("details", jstr "getaddrinfo ENOTFOUND")])⟩ ∧
    (handlerEdgeDebug cfgOk reqGood
      (fun _ => .fetchErr "getaddrinfo ENOTFOUND")).status = 502 := by
  have h := proxy_transport_failure_mapping cfgOk reqGood [] 0
    (fun _ => .fetchErr "getaddrinfo ENOTFOUND") jpNone
    "getaddrinfo ENOTFOUND"
  refine ⟨h.1 (by decide) (by decide) (by decide) (by decide) (by decide)
    (by decide) rfl, ?_⟩
  exact (h.2 (by decide) (by decide) (by decide)
    (fun _ => .fetchErr "getaddrinfo ENOTFOUND") rfl).1

/-! ## C9: query-parameter forwarding -/

theorem objAssign_not_mem (obj : List (String × String)) (k v : String)
    (h : k ∉ obj.map Prod.fst) : objAssign obj k v = obj ++ [(k, v)] := by
  induction obj with
  | nil => rfl
  | cons p t ih =>
    simp only [List.map_cons, List.mem_cons, not_or] at h
    rw [objAssign, if_neg (fun he => h.1 he.symm), ih h.2]
    rfl

theorem foldl_objAssign_nodup (entries : List (String × String)) :
    ∀ acc : List (String × String),
    (∀ p ∈ entries, p.1 ∉ acc.map Prod.fst) →
    (entries.map Prod.fst).Nodup →
    entries.foldl (fun o p => objAssign o p.1 p.2) acc = acc ++ entries := by
  induction entries with
  | nil => intro acc _ _; simp
  | cons e t ih =>
    intro acc hd hn
    simp only [List.map_cons, List.nodup_cons] at hn
    have he : e.1 ∉ acc.map Prod.fst := hd e (List.mem_cons_self e t)
    have step : objAssign acc e.1 e.2 = acc ++ [(e.1, e.2)] :=
      objAssign_not_mem acc e.1 e.2 he
    have hd2 : ∀ p ∈ t, p.1 ∉ (acc ++ [(e.1, e.2)]).map Prod.fst := by
      intro p hp
      simp only [List.map_append, List.mem_append, List.map_cons,
        List.map_nil, List.mem_singleton, not_or]
      refine ⟨hd p (List.mem_cons_of_mem e hp), ?_⟩
      intro hpe
      exact hn.1 (hpe ▸ List.mem_map_of_mem Prod.fst hp)
    calc (e :: t).foldl (fun o p => objAssign o p.1 p.2) acc
        = t.foldl (fun o p => objAssign o p.1 p.2) (objAssign acc e.1 e.2) := rfl
      _ = t.foldl (fun o p => objAssign o p.1 p.2) (acc ++ [(e.1, e.2)]) := by
          rw [step]
      _ = (acc ++ [(e.1, e.2)]) ++ t := ih (acc ++ [(e.1, e.2)]) hd2 hn.2
      _ = acc ++ e :: t := by simp

theorem paramsToObj_nodup (entries : List (String × String))
    (hn : (entries.map Prod.fst).Nodup) : paramsToObj entries = entries := by
  unfold paramsToObj
  simpa using foldl_objAssign_nodup entries [] (by simp) hn

/-- C9 counterexample: with the upstream base carrying `a=0` and the
inbound query carrying `a=1&a=2`, the forwarded query is
`a=0&a=2` — `parseQueryParams` collapses the entries into a JS object,
so the repeated key keeps only its LAST value and its first repetition
is dropped, contradicting "each repetition … with its value unchanged is
appended". -/
theorem proxy_query_duplicate_key_counterexample :
    ((handlerMain cfgOk
      ⟨"POST", [("x-proxy-secret", "s3cret")],
       some [("a", "1"), ("a", "2")], some "x", none⟩
      [] 0 fetchOk jpNone).outbound.map (fun o => o.urlParams)) =
      some [("a", "0"), ("a", "2")] ∧
    some [("a", "0"), ("a", "2")] ≠
      some [("a", "0"), ("a", "1"), ("a", "2")] := by
  refine ⟨by decide, by decide⟩

/-- C9 (amended): for every forwarded request the outbound query is the
configured base URL's own parameters (kept as they are, never
deduplicated or overwritten) followed by the inbound query collapsed
into a JS object — each distinct inbound key appended once, in
first-occurrence order, carrying its LAST inbound value; when the
inbound keys have no repetition, this is the verbatim inbound entry
list. -/
theorem proxy_query_append_object_collapsed (cfg : ProxyConfig)
    (req : InboundRequest) (m : RateMap) (now : Nat)
    (fetchF : OutboundRequest → FetchOutcome)
    (jsonParse : String → Option JsonValue) (ob : OutboundRequest)
    (hOb : (handlerMain cfg req m now fetchF jsonParse).outbound = some ob) :
    ob.urlParams = (cfg.n8nWebhookUrl.getD ⟨"", []⟩).params ++
      parseQueryParams req.parsedUrl ∧
    (∀ entries, (entries.map Prod.fst).Nodup →
      parseQueryParams (some entries) = entries) := by
  refine ⟨?_, ?_⟩
  · rw [outbound_eq_buildOutbound cfg req m now fetchF jsonParse ob hOb]
    rfl
  · intro entries hn
    unfold parseQueryParams
    exact paramsToObj_nodup entries hn

/-- Witness for C9 (amended) at a concrete input: a duplicate-free
inbound query `b=1&c=2` reaches the upstream verbatim after the base's
own `a=0`. -/
theorem proxy_query_append_object_collapsed_witness :
    (buildOutbound cfgOk
      ⟨"POST", [("x-proxy-secret", "s3cret")],
       some [("b", "1"), ("c", "2")], some "x", none⟩).urlParams =
      [("a", "0"), ("b", "1"), ("c", "2")] := by
  have h := proxy_query_append_object_collapsed cfgOk
    ⟨"POST", [("x-proxy-secret", "s3cret")],
     some [("b", "1"), ("c", "2")], some "x", none⟩
    [] 0 fetchOk jpNone
    (buildOutbound cfgOk
      ⟨"POST", [("x-proxy-secret", "s3cret")],
       some [("b", "1"), ("c", "2")], some "x", none⟩) (by decide)
  exact h.1.trans (by decide)

/-! ## C10: URL parse failure is swallowed -/

/-- C10: when the inbound URL cannot be parsed, `parseQueryParams`
returns the empty object (the catch branch), the handler behaves
exactly as it does for a request whose URL parsed with an empty query —
so the request is still forwarded, to the bare upstream URL carrying
only the base's own parameters — and the parse failure never surfaces
as a client-visible error. -/
theorem proxy_url_parse_failure_swallowed :
    (∀ (cfg : ProxyConfig) (req : InboundRequest) (m : RateMap) (now : Nat)
      (fetchF : OutboundRequest → FetchOutcome)
      (jsonParse : String → Option JsonValue),
      handlerMain cfg {req with parsedUrl := none} m now fetchF jsonParse =
        handlerMain cfg {req with parsedUrl := some []} m now fetchF
          jsonParse) ∧
    parseQueryParams none = [] ∧
    (∀ (cfg : ProxyConfig) (req : InboundRequest) (m : RateMap) (now : Nat)
      (fetchF : OutboundRequest → FetchOutcome)
      (jsonParse : String → Option JsonValue) (ob : OutboundRequest),
      req.parsedUrl = none →
      (handlerMain cfg req m now fetchF jsonParse).outbound = some ob →
      ob.urlParams = (cfg.n8nWebhookUrl.getD ⟨"", []⟩).params) := by
  refine ⟨?_, rfl, ?_⟩
  · intro cfg req m now fetchF jsonParse
    rfl
  · intro cfg req m now fetchF jsonParse ob hpu hOb
    rw [outbound_eq_buildOutbound cfg req m now fetchF jsonParse ob hOb]
    unfold buildOutbound
    rw [hpu]
    simp [parseQueryParams]

/-- Witness for C10 at a concrete input: an unparseable inbound URL
still forwards, with only the base URL's own `a=0` parameter. -/
theorem proxy_url_parse_failure_swallowed_witness :
    (buildOutbound cfgOk
      ⟨"POST", [("x-proxy-secret", "s3cret")], none, some "x", none⟩).urlParams
      = [("a", "0")] := by
  have h := proxy_url_parse_failure_swallowed
  exact (h.2.2 cfgOk
    ⟨"POST", [("x-proxy-secret", "s3cret")], none, some "x", none⟩
    [] 0 fetchOk jpNone
    (buildOutbound cfgOk
      ⟨"POST", [("x-proxy-secret", "s3cret")], none, some "x", none⟩)
    rfl (by decide)).trans (by decide)
